import Mathlib

/-!
Verification of the vault service core (src/index.js): data model, token
service, session resolver, and the access-policy operations, embedded as
pure Lean functions with explicit state passing for the mutable item store.

The JavaScript globals `users` and `vault` depend on the process
environment (`ADMIN_PASSWORD`, `FLAG`), so they are embedded as functions
of those strings.  Each GraphQL resolver closes over the mutable global
`vault`; here the current item store is threaded explicitly, and mutating
operations return the result together with the new store (on failure the
store is returned unchanged, matching the fact that the JS code throws
before mutating).
-/

/-- A registered identity, one row of the `users` array. -/
structure Identity where
  id : Nat
  username : String
  password : String
  role : String
deriving Repr, DecidableEq

/-- A vault item, one row of the `vault` array. -/
structure VaultItem where
  id : Nat
  ownerId : Nat
  content : String
  isPublic : Bool
deriving Repr, DecidableEq

/-- The typed failures the resolvers can throw. -/
inductive VaultError where
  | invalidCredentials
  | notAuthenticated
  | itemNotFound
deriving Repr, DecidableEq

/-- The seeded `users` array; the first password comes from the
`ADMIN_PASSWORD` environment variable. -/
def users (adminPassword : String) : List Identity :=
  [ { id := 1, username := "stewie", password := adminPassword, role := "admin" },
    { id := 2, username := "admin", password := "admin", role := "admiin" },
    { id := 3, username := "user1", password := "admin123", role := "user" } ]

/-- The seeded `vault` array; the first content comes from the `FLAG`
environment variable. -/
def vault (flag : String) : List VaultItem :=
  [ { id := 1, ownerId := 1, content := flag, isPublic := false },
    { id := 2, ownerId := 2, content := "Nothing to see here", isPublic := false },
    { id := 3, ownerId := 1, content := "Public note", isPublic := true },
    { id := 4, ownerId := 1, content := "FAKE_FLAG\x7bdummy_flag\x7d", isPublic := false } ]

/-- JWT claims payload signed by `login`: `{userId, role, exp}`. -/
structure Claims where
  userId : Nat
  role : String
  exp : Nat
deriving Repr, DecidableEq

/-- A raw token string, abstracted: either a well-formed signed token
(carrying its claims and the key it was signed with) or a malformed
string that no verification accepts. -/
inductive RawToken where
  | signed (claims : Claims) (key : String)
  | malformed (data : String)
deriving Repr, DecidableEq

/-- `jwt.sign(claims, key, {algorithm: 'HS256'})`. -/
def jwtSign (c : Claims) (key : String) : RawToken :=
  .signed c key

/-- `jwt.verify(token, key, {algorithms: ['HS256']})` at unix time `now`:
succeeds only when the token is well formed, signed with the same key,
and not expired (`now < exp`); on any failure it throws, modelled by
`none`. -/
def jwtVerify (tok : RawToken) (key : String) (now : Nat) : Option Claims :=
  match tok with
  | .malformed _ => none
  | .signed c k => if k == key && now < c.exp then some c else none

/-- The inbound `Authorization` header: absent (or empty), a
`Bearer <token>` presentation, or a bare token.  `authMiddleware` strips
the optional `Bearer ` prefix before verifying. -/
inductive Credential where
  | absent
  | bearer (tok : RawToken)
  | raw (tok : RawToken)
deriving Repr, DecidableEq

/-- The `authMiddleware` function: resolves a request credential to a
context.  The context's `user` field is `Option Identity`: `none` is the
unauthenticated context `{}` (the JS value `{ user: undefined }`, produced
when the verified `userId` is not in `users`, is contextually identical to
it, since resolvers only test `context.user` for truthiness).  Every
verification failure is caught and downgraded to `none`; the function has
no error outcome at all. -/
def authMiddleware (cred : Credential) (us : List Identity) (key : String) (now : Nat) :
    Option Identity :=
  match cred with
  | .absent => none
  | .bearer t =>
    match jwtVerify t key now with
    | none => none
    | some c => us.find? (fun u => u.id == c.userId)
  | .raw t =>
    match jwtVerify t key now with
    | none => none
    | some c => us.find? (fun u => u.id == c.userId)

/-- The `login` resolver: exact username+password match, then issues a
token with `exp = now + 60*60` and returns it with the matching user. -/
def login (username password : String) (us : List Identity) (key : String) (now : Nat) :
    Except VaultError (RawToken × Identity) :=
  match us.find? (fun u => u.username == username && u.password == password) with
  | none => .error .invalidCredentials
  | some user =>
    .ok (jwtSign { userId := user.id, role := user.role, exp := now + 60 * 60 } key, user)

/-- The `vaultItems` resolver: requires authentication; role `"admin"`
bypasses the filter and receives the whole store. -/
def vaultItems (ctx : Option Identity) (v : List VaultItem) :
    Except VaultError (List VaultItem) :=
  match ctx with
  | none => .error .notAuthenticated
  | some u =>
    if u.role == "admin" then .ok v
    else .ok (v.filter (fun i => i.ownerId == u.id || i.isPublic))

/-- The `publicVaultItems` resolver. -/
def publicVaultItems (v : List VaultItem) : List VaultItem :=
  v.filter (fun i => i.isPublic)

/-- `isPrefixB pat l` : JavaScript-style check that `pat` starts `l`. -/
def isPrefixB : List Char → List Char → Bool
  | [], _ => true
  | _ :: _, [] => false
  | a :: pat, b :: l => a == b && isPrefixB pat l

/-- Substring search over character lists, scanning every suffix. -/
def includesAux (pat : List Char) : List Char → Bool
  | [] => isPrefixB pat []
  | c :: cs => isPrefixB pat (c :: cs) || includesAux pat cs

/-- `s.includes(sub)` of JavaScript: substring containment. -/
def jsIncludes (s sub : String) : Bool :=
  includesAux sub.data s.data

/-- The visibility condition of `searchVault`:
`i.isPublic || (context.user && i.ownerId === context.user.id)`. -/
def canSee (ctx : Option Identity) (i : VaultItem) : Bool :=
  i.isPublic || (match ctx with | some u => i.ownerId == u.id | none => false)

/-- The `searchVault` resolver: no authentication requirement, no admin
bypass; filters by substring match on `content` and visibility. -/
def searchVault (searchTerm : String) (ctx : Option Identity) (v : List VaultItem) :
    List VaultItem :=
  v.filter (fun i => jsIncludes i.content searchTerm && canSee ctx i)

/-- The `createVaultItem` resolver: requires authentication, pushes a new
item with `id = vault.length + 1` owned by the caller, and returns it.  On
failure the store is unchanged (the JS code throws before pushing). -/
def createVaultItem (content : String) (isPub : Bool) (ctx : Option Identity)
    (v : List VaultItem) : Except VaultError VaultItem × List VaultItem :=
  match ctx with
  | none => (.error .notAuthenticated, v)
  | some u =>
    let newItem : VaultItem :=
      { id := v.length + 1, ownerId := u.id, content := content, isPublic := isPub }
    (.ok newItem, v ++ [newItem])

/-- `vault.find(i => i.id === parseInt(id))` followed by in-place
`item.isPublic = true`: the first item whose id matches is replaced by its
published copy; everything else is untouched. -/
def publishFirst (id : Nat) : List VaultItem → List VaultItem
  | [] => []
  | i :: rest =>
    if i.id == id then { i with isPublic := true } :: rest
    else i :: publishFirst id rest

/-- The `makeVaultItemPublic` resolver: requires authentication (no
ownership check), fails when no item has the id, otherwise publishes the
first matching item and returns the mutated item.  On failure the store is
unchanged. -/
def makeVaultItemPublic (id : Nat) (ctx : Option Identity) (v : List VaultItem) :
    Except VaultError VaultItem × List VaultItem :=
  match ctx with
  | none => (.error .notAuthenticated, v)
  | some _ =>
    match v.find? (fun i => i.id == id) with
    | none => (.error .itemNotFound, v)
    | some item => (.ok { item with isPublic := true }, publishFirst id v)

/-- The whole mutable process state: the read-only credential store and
the mutable item store. -/
structure ServerState where
  users : List Identity
  vault : List VaultItem
deriving Repr, DecidableEq

/-- `makeVaultItemPublic` acting on the whole process state: the resolver
reads and writes only the item store. -/
def makeVaultItemPublicS (id : Nat) (ctx : Option Identity) (s : ServerState) :
    Except VaultError VaultItem × ServerState :=
  ((makeVaultItemPublic id ctx s.vault).1,
   { s with vault := (makeVaultItemPublic id ctx s.vault).2 })

/-! ## Helper lemmas -/

/-- Every string contains the empty string as a substring. -/
theorem jsIncludes_empty (s : String) : jsIncludes s "" = true := by
  show includesAux [] s.data = true
  cases s.data with
  | nil => rfl
  | cons c cs => simp [includesAux, isPrefixB]

/-! ## Claims -/

/-- Claim C1: for every call to `vaultItems` with an authenticated
context whose role string is exactly `"admin"`, the result is the entire
item store unfiltered, so it includes every item of the store, also the
ones neither owned by the caller nor public. -/
theorem vaultItems_admin_unfiltered (u : Identity) (v : List VaultItem)
    (h : u.role = "admin") :
    vaultItems (some u) v = .ok v ∧
    ∀ i ∈ v, i.ownerId ≠ u.id → i.isPublic = false →
      ∃ items, vaultItems (some u) v = .ok items ∧ i ∈ items := by
  refine ⟨by simp [vaultItems, h], ?_⟩
  intro i hi _ _
  exact ⟨v, by simp [vaultItems, h], hi⟩

theorem vaultItems_admin_unfiltered_witness :
    vaultItems (some { id := 1, username := "stewie", password := "pw", role := "admin" })
        (vault "FLAG") = .ok (vault "FLAG") :=
  (vaultItems_admin_unfiltered
    { id := 1, username := "stewie", password := "pw", role := "admin" }
    (vault "FLAG") rfl).1

/-- Claim C2: for every call to `vaultItems` with an authenticated
context whose role is not exactly `"admin"`, every item of the result is
owned by the caller or public; a non-owned non-public item is never
returned. -/
theorem vaultItems_nonAdmin_filtered (u : Identity) (v : List VaultItem)
    (h : u.role ≠ "admin") :
    ∃ items, vaultItems (some u) v = .ok items ∧
      ∀ i ∈ items, i.ownerId = u.id ∨ i.isPublic = true := by
  refine ⟨v.filter (fun i => i.ownerId == u.id || i.isPublic), ?_, ?_⟩
  · simp only [vaultItems]
    rw [if_neg]
    simp [h]
  · intro i hi
    have hp := List.of_mem_filter hi
    rcases Bool.or_eq_true_iff.mp hp with h1 | h1
    · exact Or.inl (by simpa using h1)
    · exact Or.inr h1

theorem vaultItems_nonAdmin_filtered_witness :
    ∃ items,
      vaultItems (some { id := 3, username := "user1", password := "admin123", role := "user" })
        (vault "FLAG") = .ok items ∧
      ∀ i ∈ items, i.ownerId = 3 ∨ i.isPublic = true :=
  vaultItems_nonAdmin_filtered
    { id := 3, username := "user1", password := "admin123", role := "user" }
    (vault "FLAG") (by decide)

/-- Claim C3: for every context (unauthenticated, or authenticated with
any role, `"admin"` included) and every search term, `searchVault`
returns exactly the items whose content contains the term as a substring
and that are public or owned by the authenticated caller; in particular
an item that is not public and not owned by the caller is never in the
result, whatever the caller's role: the admin bypass of `vaultItems` does
not apply. -/
theorem searchVault_visibility (term : String) (ctx : Option Identity)
    (v : List VaultItem) :
    ∀ i, i ∈ searchVault term ctx v ↔
      i ∈ v ∧ jsIncludes i.content term = true ∧
        (i.isPublic = true ∨ ∃ u, ctx = some u ∧ i.ownerId = u.id) := by
  intro i
  constructor
  · intro hi
    have hm := List.mem_of_mem_filter hi
    have hp := List.of_mem_filter hi
    rcases Bool.and_eq_true_iff.mp hp with ⟨h1, h2⟩
    refine ⟨hm, h1, ?_⟩
    unfold canSee at h2
    rcases Bool.or_eq_true_iff.mp h2 with h3 | h3
    · exact Or.inl h3
    · cases ctx with
      | none => exact absurd h3 (by simp)
      | some u => exact Or.inr ⟨u, rfl, by simpa using h3⟩
  · rintro ⟨hm, h1, h2⟩
    refine List.mem_filter.mpr ⟨hm, ?_⟩
    refine Bool.and_eq_true_iff.mpr ⟨h1, ?_⟩
    unfold canSee
    rcases h2 with h3 | ⟨u, rfl, h3⟩
    · exact Bool.or_eq_true_iff.mpr (Or.inl h3)
    · exact Bool.or_eq_true_iff.mpr (Or.inr (by simp [h3]))

theorem searchVault_visibility_witness :
    { id := 1, ownerId := 1, content := "FLAG", isPublic := false } ∉
      searchVault "FLAG" (some { id := 2, username := "admin", password := "admin", role := "admin" })
        (vault "FLAG") := by
  intro hmem
  have h := (searchVault_visibility "FLAG"
      (some { id := 2, username := "admin", password := "admin", role := "admin" })
      (vault "FLAG") { id := 1, ownerId := 1, content := "FLAG", isPublic := false }).mp hmem
  rcases h.2.2 with h1 | ⟨u, hu, h2⟩
  · exact absurd h1 (by decide)
  · cases Option.some.inj hu
    exact absurd h2 (by decide)

/-- Claim C10: `searchVault` with the empty search term returns exactly
the items visible to the caller under the visibility rule (public, or
authenticated owner), since every content string contains the empty
string as a substring. -/
theorem searchVault_empty_term (ctx : Option Identity) (v : List VaultItem) :
    searchVault "" ctx v = v.filter (canSee ctx) := by
  unfold searchVault
  apply List.filter_congr
  intro i _
  rw [jsIncludes_empty, Bool.true_and]

theorem searchVault_empty_term_witness :
    searchVault "" none (vault "FLAG") = List.filter (canSee none) (vault "FLAG") :=
  searchVault_empty_term none (vault "FLAG")

/-- Claim C4: session resolution never surfaces an error (its only
outcome is a context).  Absence of a credential yields the
unauthenticated context; every verification failure — malformed
encoding, a signature made with a different key, an expired token, or a
verified `userId` absent from the credential store — is swallowed and
likewise yields the unauthenticated context, for both the `Bearer`
presentation and the bare-token presentation. -/
theorem authMiddleware_fail_open (us : List Identity) (key : String) (now : Nat) :
    authMiddleware .absent us key now = none ∧
    (∀ s, jwtVerify (.malformed s) key now = none) ∧
    (∀ c k, k ≠ key → jwtVerify (.signed c k) key now = none) ∧
    (∀ c k, c.exp ≤ now → jwtVerify (.signed c k) key now = none) ∧
    (∀ t, jwtVerify t key now = none →
      authMiddleware (.bearer t) us key now = none ∧
      authMiddleware (.raw t) us key now = none) ∧
    (∀ t c, jwtVerify t key now = some c →
      us.find? (fun u => u.id == c.userId) = none →
      authMiddleware (.bearer t) us key now = none ∧
      authMiddleware (.raw t) us key now = none) := by
  refine ⟨rfl, fun s => rfl, ?_, ?_, ?_, ?_⟩
  · intro c k hk
    simp [jwtVerify, hk]
  · intro c k hexp
    simp [jwtVerify, Nat.not_lt.mpr hexp]
  · intro t hv
    constructor <;> simp [authMiddleware, hv]
  · intro t c hv hfind
    constructor <;> simp [authMiddleware, hv, hfind]

theorem authMiddleware_fail_open_witness :
    authMiddleware .absent (users "pw") "sec" 0 = none ∧
    authMiddleware (.bearer (.malformed "garbage")) (users "pw") "sec" 0 = none ∧
    authMiddleware (.raw (.signed { userId := 1, role := "admin", exp := 100 } "other"))
      (users "pw") "sec" 200 = none ∧
    authMiddleware (.bearer (.signed { userId := 1, role := "admin", exp := 100 } "sec"))
      (users "pw") "sec" 100 = none ∧
    authMiddleware (.bearer (.signed { userId := 42, role := "admin", exp := 100 } "sec"))
      (users "pw") "sec" 0 = none := by
  refine ⟨(authMiddleware_fail_open (users "pw") "sec" 0).1, ?_, ?_, ?_, ?_⟩
  · exact (((authMiddleware_fail_open (users "pw") "sec" 0).2.2.2.2.1
      (.malformed "garbage") (by decide)).1)
  · exact (((authMiddleware_fail_open (users "pw") "sec" 200).2.2.2.2.1
      (.signed { userId := 1, role := "admin", exp := 100 } "other") (by decide)).2)
  · exact (((authMiddleware_fail_open (users "pw") "sec" 100).2.2.2.2.1
      (.signed { userId := 1, role := "admin", exp := 100 } "sec") (by decide)).1)
  · exact (((authMiddleware_fail_open (users "pw") "sec" 0).2.2.2.2.2
      (.signed { userId := 42, role := "admin", exp := 100 } "sec")
      { userId := 42, role := "admin", exp := 100 } (by decide) (by decide)).1)

/-- Claim C5: whenever `login` succeeds for a registered identity, the
token it issues, verified immediately (at the issuance time), yields
claims whose `userId` is the identity's id, whose `role` is the
identity's role, and whose `exp` is exactly 3600 seconds after the
issuance time. -/
theorem login_verify_roundtrip (username pw : String) (us : List Identity)
    (key : String) (now : Nat) (tok : RawToken) (user : Identity)
    (h : login username pw us key now = .ok (tok, user)) :
    jwtVerify tok key now = some { userId := user.id, role := user.role, exp := now + 3600 } := by
  unfold login at h
  cases hfind : us.find? (fun u => u.username == username && u.password == pw) with
  | none => rw [hfind] at h; exact absurd h (by simp)
  | some w =>
    rw [hfind] at h
    have hw : w = user := congrArg Prod.snd (Except.ok.inj h)
    have ht : tok = jwtSign { userId := w.id, role := w.role, exp := now + 60 * 60 } key :=
      (congrArg Prod.fst (Except.ok.inj h)).symm
    subst hw
    rw [ht]
    simp [jwtSign, jwtVerify]

theorem login_verify_roundtrip_witness :
    jwtVerify (jwtSign { userId := 2, role := "admiin", exp := 1000 + 60 * 60 } "sec") "sec" 1000
      = some { userId := 2, role := "admiin", exp := 1000 + 3600 } :=
  login_verify_roundtrip "admin" "admin" (users "pw") "sec" 1000
    (jwtSign { userId := 2, role := "admiin", exp := 1000 + 60 * 60 } "sec")
    { id := 2, username := "admin", password := "admin", role := "admiin" }
    rfl

/-- Claim C6: `makeVaultItemPublic id` fails with `NotAuthenticated`
exactly when the context is unauthenticated; fails with `ItemNotFound`
exactly when the context is authenticated and no item of the store has
that id; and otherwise — for every authenticated identity, owner or not —
sets the found item's `isPublic` to `true` and returns that item. -/
theorem makeVaultItemPublic_cases (id : Nat) (ctx : Option Identity) (v : List VaultItem) :
    ((makeVaultItemPublic id ctx v).1 = .error .notAuthenticated ↔ ctx = none) ∧
    ((makeVaultItemPublic id ctx v).1 = .error .itemNotFound ↔
      ctx ≠ none ∧ ∀ i ∈ v, i.id ≠ id) ∧
    (∀ u item, ctx = some u → v.find? (fun i => i.id == id) = some item →
      (makeVaultItemPublic id ctx v).1 = .ok { item with isPublic := true } ∧
      (makeVaultItemPublic id ctx v).2 = publishFirst id v) := by
  cases ctx with
  | none =>
    refine ⟨by simp [makeVaultItemPublic], ?_, ?_⟩
    · simp [makeVaultItemPublic]
    · intro u item h
      exact absurd h (by simp)
  | some u =>
    cases hfind : v.find? (fun i => i.id == id) with
    | none =>
      have hall : ∀ i ∈ v, i.id ≠ id := by
        intro i hi
        have := List.find?_eq_none.mp hfind i hi
        simpa using this
      refine ⟨by simp [makeVaultItemPublic, hfind], ?_, ?_⟩
      · simp only [makeVaultItemPublic, hfind]
        constructor
        · intro _; exact ⟨by simp, hall⟩
        · intro _; trivial
      · intro w item _ hfound
        exact absurd hfound (by simp)
    | some item =>
      have hmem : item ∈ v := List.mem_of_find?_eq_some hfind
      have hid : item.id = id := by
        have := List.find?_some hfind
        simpa using this
      refine ⟨by simp [makeVaultItemPublic, hfind], ?_, ?_⟩
      · simp only [makeVaultItemPublic, hfind]
        constructor
        · intro h; exact absurd h (by simp)
        · rintro ⟨-, hall⟩
          exact absurd hid (hall item hmem)
      · intro w item2 hw hfound
        cases Option.some.inj hfound
        exact ⟨by simp [makeVaultItemPublic, hfind], by simp [makeVaultItemPublic, hfind]⟩

theorem makeVaultItemPublic_cases_witness :
    (makeVaultItemPublic 2
        (some { id := 3, username := "user1", password := "admin123", role := "user" })
        (vault "FLAG")).1 =
      .ok { id := 2, ownerId := 2, content := "Nothing to see here", isPublic := true } ∧
    (makeVaultItemPublic 2 none (vault "FLAG")).1 = .error .notAuthenticated :=
  ⟨((makeVaultItemPublic_cases 2
      (some { id := 3, username := "user1", password := "admin123", role := "user" })
      (vault "FLAG")).2.2
      { id := 3, username := "user1", password := "admin123", role := "user" }
      { id := 2, ownerId := 2, content := "Nothing to see here", isPublic := false }
      rfl rfl).1,
   (makeVaultItemPublic_cases 2 none (vault "FLAG")).1.mpr rfl⟩

/-- Claim C7: `createVaultItem` with an unauthenticated context fails
with `NotAuthenticated` and leaves the item store exactly as it was
(hence its length unchanged); with an authenticated context it appends
exactly one new item, whose `ownerId` is the caller's id and whose id is
the current item count plus one, and returns that item. -/
theorem createVaultItem_cases (content : String) (isPub : Bool) (ctx : Option Identity)
    (v : List VaultItem) :
    (ctx = none →
      (createVaultItem content isPub ctx v).1 = .error .notAuthenticated ∧
      (createVaultItem content isPub ctx v).2 = v) ∧
    (∀ u, ctx = some u →
      (createVaultItem content isPub ctx v).1 =
        .ok { id := v.length + 1, ownerId := u.id, content := content, isPublic := isPub } ∧
      (createVaultItem content isPub ctx v).2 =
        v ++ [{ id := v.length + 1, ownerId := u.id, content := content, isPublic := isPub }]) := by
  constructor
  · rintro rfl
    exact ⟨rfl, rfl⟩
  · rintro u rfl
    exact ⟨rfl, rfl⟩

theorem createVaultItem_cases_witness :
    (createVaultItem "note" false none (vault "FLAG")).2 = vault "FLAG" ∧
    (createVaultItem "note" false
        (some { id := 3, username := "user1", password := "admin123", role := "user" })
        (vault "FLAG")).1 =
      .ok { id := (vault "FLAG").length + 1, ownerId := 3, content := "note", isPublic := false } :=
  ⟨((createVaultItem_cases "note" false none (vault "FLAG")).1 rfl).2,
   ((createVaultItem_cases "note" false
      (some { id := 3, username := "user1", password := "admin123", role := "user" })
      (vault "FLAG")).2
      { id := 3, username := "user1", password := "admin123", role := "user" } rfl).1⟩

/-- Unfolding lemma for `find?` on a cons cell. -/
theorem find?_cons_item (p : VaultItem → Bool) (a : VaultItem) (l : List VaultItem) :
    List.find? p (a :: l) = if p a then some a else List.find? p l := by
  cases hpa : p a <;> simp [List.find?, hpa]

/-- Decomposition of a successful `find?`: the store splits into the
items before the first match (none of which matches), the match, and the
rest; `publishFirst` rewrites exactly the match. -/
theorem publishFirst_decomp (id : Nat) :
    ∀ (v : List VaultItem) (t : VaultItem), v.find? (fun i => i.id == id) = some t →
      ∃ pre post, v = pre ++ t :: post ∧ (∀ j ∈ pre, j.id ≠ id) ∧
        publishFirst id v = pre ++ { t with isPublic := true } :: post := by
  intro v
  induction v with
  | nil => intro t h; exact absurd h (by simp)
  | cons a rest ih =>
    intro t h
    rw [find?_cons_item] at h
    by_cases ha : (a.id == id) = true
    · rw [if_pos ha] at h
      cases Option.some.inj h
      exact ⟨[], rest, rfl, by simp, by simp [publishFirst, ha]⟩
    · rw [if_neg ha] at h
      obtain ⟨pre, post, hv, hpre, hpub⟩ := ih t h
      refine ⟨a :: pre, post, by rw [hv]; rfl, ?_, ?_⟩
      · intro j hj
        rcases List.mem_cons.mp hj with rfl | hj2
        · simpa using ha
        · exact hpre j hj2
      · simp only [publishFirst]
        rw [if_neg ha, hpub]
        rfl

/-- Claim C9: when `makeVaultItemPublic` succeeds, the mutation changes
only the `isPublic` field of the targeted item (the first item carrying
the requested id): the returned item keeps that item's `id`, `ownerId`
and `content`, every other item of the store is unchanged, and the
credential store is unchanged. -/
theorem makeVaultItemPublic_frame (id : Nat) (u : Identity) (s : ServerState)
    (item : VaultItem)
    (hok : (makeVaultItemPublicS id (some u) s).1 = .ok item) :
    (makeVaultItemPublicS id (some u) s).2.users = s.users ∧
    ∃ pre target post,
      s.vault = pre ++ target :: post ∧
      (∀ j ∈ pre, j.id ≠ id) ∧
      target.id = id ∧
      item = { target with isPublic := true } ∧
      item.id = target.id ∧ item.ownerId = target.ownerId ∧
      item.content = target.content ∧ item.isPublic = true ∧
      (makeVaultItemPublicS id (some u) s).2.vault = pre ++ item :: post := by
  have h1 : (makeVaultItemPublicS id (some u) s).1 = (makeVaultItemPublic id (some u) s.vault).1 := rfl
  have h2 : (makeVaultItemPublicS id (some u) s).2.vault = (makeVaultItemPublic id (some u) s.vault).2 := rfl
  rw [h1] at hok
  cases hfind : s.vault.find? (fun i => i.id == id) with
  | none =>
    rw [show (makeVaultItemPublic id (some u) s.vault).1 = .error .itemNotFound from by
      simp [makeVaultItemPublic, hfind]] at hok
    exact absurd hok (by simp)
  | some t =>
    rw [show (makeVaultItemPublic id (some u) s.vault).1 = .ok { t with isPublic := true } from by
      simp [makeVaultItemPublic, hfind]] at hok
    have hitem : item = { t with isPublic := true } := (Except.ok.inj hok).symm
    obtain ⟨pre, post, hv, hpre, hpub⟩ := publishFirst_decomp id s.vault t hfind
    have hid : t.id = id := by simpa using List.find?_some hfind
    subst hitem
    refine ⟨rfl, pre, t, post, hv, hpre, hid, rfl, rfl, rfl, rfl, rfl, ?_⟩
    rw [h2, show (makeVaultItemPublic id (some u) s.vault).2 = publishFirst id s.vault from by
      simp [makeVaultItemPublic, hfind], hpub]

theorem makeVaultItemPublic_frame_witness :
    (makeVaultItemPublicS 2
        (some { id := 1, username := "stewie", password := "pw", role := "admin" })
        { users := users "pw", vault := vault "FLAG" }).2.users = users "pw" ∧
    ∃ pre target post,
      vault "FLAG" = pre ++ target :: post ∧
      (∀ j ∈ pre, j.id ≠ 2) ∧
      target.id = 2 ∧
      ({ id := 2, ownerId := 2, content := "Nothing to see here", isPublic := true } : VaultItem)
        = { target with isPublic := true } ∧
      ({ id := 2, ownerId := 2, content := "Nothing to see here", isPublic := true } : VaultItem).id
        = target.id ∧
      ({ id := 2, ownerId := 2, content := "Nothing to see here", isPublic := true } : VaultItem).ownerId
        = target.ownerId ∧
      ({ id := 2, ownerId := 2, content := "Nothing to see here", isPublic := true } : VaultItem).content
        = target.content ∧
      ({ id := 2, ownerId := 2, content := "Nothing to see here", isPublic := true } : VaultItem).isPublic
        = true ∧
      (makeVaultItemPublicS 2
          (some { id := 1, username := "stewie", password := "pw", role := "admin" })
          { users := users "pw", vault := vault "FLAG" }).2.vault
        = pre ++ { id := 2, ownerId := 2, content := "Nothing to see here", isPublic := true } :: post :=
  makeVaultItemPublic_frame 2
    { id := 1, username := "stewie", password := "pw", role := "admin" }
    { users := users "pw", vault := vault "FLAG" }
    { id := 2, ownerId := 2, content := "Nothing to see here", isPublic := true }
    rfl

/-- Claim C8, counterexample: the claim asserts that in the seeded store
identity 1 is non-admin, but the seeded `users` array gives id 1 (user
`stewie`) the role `"admin"` exactly, so that conjunct is false. -/
theorem seed_identity1_admin_counterexample :
    ¬ (∀ u ∈ users "hunter2", u.id = 1 → u.role ≠ "admin") := by decide

/-- Claim C8 as amended: in the seeded initial state, item id 2 is owned
by identity 2 with `isPublic = false`, and identity 1 has role `"admin"`
(the claim's assertion that identity 1 is non-admin fails on the seed);
still, when identity 1 authenticates and calls `makeVaultItemPublic 2`,
the call succeeds, item 2 becomes public, and a subsequent
unauthenticated `publicVaultItems` call includes item 2. -/
theorem seed_publish_scenario (flag pw : String) :
    (vault flag).find? (fun i => i.id == 2) =
      some { id := 2, ownerId := 2, content := "Nothing to see here", isPublic := false } ∧
    (∀ u ∈ users pw, u.id = 1 → u.role = "admin") ∧
    ({ id := 1, username := "stewie", password := pw, role := "admin" } : Identity) ∈ users pw ∧
    ∃ item v2,
      makeVaultItemPublic 2
          (some { id := 1, username := "stewie", password := pw, role := "admin" })
          (vault flag) = (.ok item, v2) ∧
      item.id = 2 ∧ item.isPublic = true ∧
      ∃ j ∈ publicVaultItems v2, j.id = 2 := by
  refine ⟨rfl, ?_, by simp [users], ?_⟩
  · intro u hu h1
    simp [users] at hu
    rcases hu with rfl | rfl | rfl
    · rfl
    · exact absurd h1 (by decide)
    · exact absurd h1 (by decide)
  · refine ⟨{ id := 2, ownerId := 2, content := "Nothing to see here", isPublic := true },
      publishFirst 2 (vault flag), rfl, rfl, rfl, ?_⟩
    have hpub : publicVaultItems (publishFirst 2 (vault flag)) =
        [{ id := 2, ownerId := 2, content := "Nothing to see here", isPublic := true },
         { id := 3, ownerId := 1, content := "Public note", isPublic := true }] := rfl
    exact ⟨{ id := 2, ownerId := 2, content := "Nothing to see here", isPublic := true },
      by rw [hpub]; exact List.mem_cons_self _ _, rfl⟩

theorem seed_publish_scenario_witness :
    ∃ item v2,
      makeVaultItemPublic 2
          (some { id := 1, username := "stewie", password := "pw", role := "admin" })
          (vault "FLAG") = (.ok item, v2) ∧
      item.id = 2 ∧ item.isPublic = true ∧
      ∃ j ∈ publicVaultItems v2, j.id = 2 :=
  (seed_publish_scenario "FLAG" "pw").2.2.2
